import Mathlib

/-!
Shallow embedding of the AVR parallel-EEPROM programmer's bus driver and
command sequencer (src/main.cpp).

Every pin-level operation performed by the firmware is recorded as an
`Event`; each C++ routine is embedded as the trace of events it emits, in
the order it emits them.  The external address latches, the control lines
and the EEPROM device on the other ends of those pins are modelled as a
state machine (`BusState`, `step`) consuming the trace, which lets us state
both sequencing properties (about the traces themselves) and end-to-end
properties (about the state reached by running a trace).

The pin-abstraction library (`core/io`: `Latch`, `WordExtend`, `ActiveLow`,
`ActiveHigh`) is not part of this repository's sources; its primitives are
modelled from the specification where noted.
-/

/-- The four single control lines used by the bus driver: the two address
latch enables (PortC bits 5 and 4), read enable (PortC bit 3) and write
enable (PortC bit 2).  Polarity is already resolved: asserting a line means
driving its active level, whether active-high (latches) or active-low
(read/write enable). -/
inductive Line
  | msbLatch
  | lsbLatch
  | readEn
  | writeEn
deriving BEq

/-- One pin-level event emitted by the firmware, as seen at the controller's
pins: direction changes and value writes/samples of the shared 8-bit data
port, assertion/deassertion of a control line, configuring a control line as
output, a one-cycle no-op, and a millisecond busy-wait. -/
inductive Event
  | configOutput
  | configInput
  | dataWrite (v : Nat)
  | sample
  | assertLine (l : Line)
  | deassertLine (l : Line)
  | configLineOutput (l : Line)
  | nop
  | delayMs (ms : Nat)
deriving BEq

/-- State of everything on the far side of the controller's pins, plus the
controller's own pin configuration: data-port direction and driven value,
direction and assertion state of the four control lines, the two external
address-latch contents, the EEPROM's memory and software-data-protection
flag, and the last byte sampled from the data port. -/
structure BusState where
  dataDir : Bool
  dataOut : Nat
  msbDir : Bool
  lsbDir : Bool
  readEnDir : Bool
  writeEnDir : Bool
  msbEn : Bool
  lsbEn : Bool
  readEn : Bool
  writeEn : Bool
  addrMSB : Nat
  addrLSB : Nat
  mem : Nat → Nat
  locked : Bool
  sampled : Nat

/-- Value currently on the shared data lines: the controller's driven byte
when the controller's data port is output, the EEPROM's output for the
latched address while read enable is asserted, else floating (pulled high). -/
def busVal (s : BusState) : Nat :=
  if s.dataDir then s.dataOut % 256
  else if s.readEn then s.mem (s.addrMSB * 256 + s.addrLSB) % 256
  else 0xFF

/-- Effect of one pin event on the bus state.  An address latch captures the
data-line value when its enable is asserted; the EEPROM commits the
data-line byte to memory at the latched address on the rising (deasserting)
edge of write enable, unless software data protection is locked; sampling
records the current data-line value; configuring a control line as output
leaves it at its idle (deasserted) level. -/
def step (s : BusState) : Event → BusState
  | .configOutput => { s with dataDir := true }
  | .configInput => { s with dataDir := false }
  | .dataWrite v => { s with dataOut := v }
  | .sample => { s with sampled := busVal s }
  | .assertLine .msbLatch => { s with msbEn := true, addrMSB := busVal s }
  | .assertLine .lsbLatch => { s with lsbEn := true, addrLSB := busVal s }
  | .assertLine .readEn => { s with readEn := true }
  | .assertLine .writeEn => { s with writeEn := true }
  | .deassertLine .msbLatch => { s with msbEn := false }
  | .deassertLine .lsbLatch => { s with lsbEn := false }
  | .deassertLine .readEn => { s with readEn := false }
  | .deassertLine .writeEn =>
      { s with writeEn := false,
               mem := if s.writeEn && !s.locked then
                 fun x => if x = s.addrMSB * 256 + s.addrLSB then busVal s else s.mem x
               else s.mem }
  | .configLineOutput .msbLatch => { s with msbDir := true, msbEn := false }
  | .configLineOutput .lsbLatch => { s with lsbDir := true, lsbEn := false }
  | .configLineOutput .readEn => { s with readEnDir := true, readEn := false }
  | .configLineOutput .writeEn => { s with writeEnDir := true, writeEn := false }
  | .nop => s
  | .delayMs _ => s

/-- Run a trace of pin events from a starting state. -/
def applyTrace (s : BusState) : List Event → BusState
  | [] => s
  | e :: t => applyTrace (step s e) t

/-- Modelled from the spec: `DataPort::config_output()` from the `core/io`
pin-abstraction library switches the 8-bit shared data port to output. -/
def DataPort.config_output : List Event := [Event.configOutput]

/-- Modelled from the spec: `DataPort::config_input()` switches the 8-bit
shared data port to input. -/
def DataPort.config_input : List Event := [Event.configInput]

/-- Modelled from the spec: `DataPort::write(v)` drives the 8-bit value `v`
(a `uint8_t`, hence `% 256`) onto the data port. -/
def DataPort.write (v : Nat) : List Event := [Event.dataWrite (v % 256)]

/-- Modelled from the spec: `DataPort::read()` samples the data port. -/
def DataPort.read : List Event := [Event.sample]

/-- Modelled from the spec: `Latch<DataPort, strobe>::write(v)` drives `v`
onto the underlying data lines and pulses the strobe line through
assert → deassert. -/
def Latch.write (l : Line) (v : Nat) : List Event :=
  DataPort.write v ++ [Event.assertLine l, Event.deassertLine l]

/-- Modelled from the spec: configuring a latch configures its strobe line
as output at the idle level; the shared data port is configured separately
by the bus driver. -/
def Latch.config_output (l : Line) : List Event := [Event.configLineOutput l]

/-- `AddressMSB = Latch<DataPort, MSBLatch>` (main.cpp line 47). -/
def AddressMSB.write (v : Nat) : List Event := Latch.write Line.msbLatch v

/-- `AddressLSB = Latch<DataPort, LSBLatch>` (main.cpp line 48). -/
def AddressLSB.write (v : Nat) : List Event := Latch.write Line.lsbLatch v

/-- Modelled from the spec: `WordExtend<AddressMSB, AddressLSB>::write(addr)`
writes the most-significant byte latch first, then the least-significant
byte latch. -/
def AddressPort.write (addr : Nat) : List Event :=
  AddressMSB.write (addr / 256) ++ AddressLSB.write (addr % 256)

/-- Modelled from the spec: configuring the 16-bit address port configures
both latch strobes as output, MSB first. -/
def AddressPort.config_output : List Event :=
  Latch.config_output Line.msbLatch ++ Latch.config_output Line.lsbLatch

/-- Modelled from the spec: `ReadEnable::enable()` asserts read enable
(drives the active-low line low). -/
def ReadEnable.enable : List Event := [Event.assertLine Line.readEn]

/-- Modelled from the spec: `ReadEnable::disable()` deasserts read enable. -/
def ReadEnable.disable : List Event := [Event.deassertLine Line.readEn]

/-- Modelled from the spec: `ReadEnable::config_output()` configures the
read-enable line as output at its idle (deasserted) level. -/
def ReadEnable.config_output : List Event := [Event.configLineOutput Line.readEn]

/-- Modelled from the spec: `WriteEnable::enable()` asserts write enable. -/
def WriteEnable.enable : List Event := [Event.assertLine Line.writeEn]

/-- Modelled from the spec: `WriteEnable::disable()` deasserts write enable. -/
def WriteEnable.disable : List Event := [Event.deassertLine Line.writeEn]

/-- Modelled from the spec: `WriteEnable::config_output()` configures the
write-enable line as output at its idle (deasserted) level. -/
def WriteEnable.config_output : List Event := [Event.configLineOutput Line.writeEn]

/-- Trace of `Bus::config_write()` (main.cpp lines 63-68). -/
def Bus.config_write : List Event :=
  AddressPort.config_output ++ DataPort.config_output ++
  ReadEnable.config_output ++ WriteEnable.config_output

/-- Trace of `Bus::write_bus(addr, data)` (main.cpp lines 70-75); `addr` is
a `uint16_t`, hence `% 65536`. -/
def Bus.write_bus (addr data : Nat) : List Event :=
  AddressPort.write (addr % 65536) ++ WriteEnable.enable ++
  DataPort.write data ++ WriteEnable.disable

/-- Trace of `Bus::config_read()` (main.cpp lines 77-82). -/
def Bus.config_read : List Event :=
  AddressPort.config_output ++ DataPort.config_input ++
  ReadEnable.config_output ++ WriteEnable.config_output

/-- One no-op cycle: `asm volatile nop` (main.cpp lines 94-95). -/
def nop : List Event := [Event.nop]

/-- Trace of `Bus::read_bus(addr)` (main.cpp lines 84-101): latch the
address through the data port in output mode, switch the data port to
input, assert read enable, wait two no-op cycles, sample, deassert read
enable. -/
def Bus.read_bus_trace (addr : Nat) : List Event :=
  DataPort.config_output ++ AddressPort.write (addr % 65536) ++
  DataPort.config_input ++ ReadEnable.enable ++
  nop ++ nop ++ DataPort.read ++ ReadEnable.disable

/-- `Bus::read_bus(addr)` run from a bus state: the resulting state and the
returned byte (the value the trailing `return data` yields, i.e. what the
`DataPort::read()` call sampled). -/
def Bus.read_bus (s : BusState) (addr : Nat) : BusState × Nat :=
  let s2 := applyTrace s (Bus.read_bus_trace addr)
  (s2, s2.sampled)

/-- Arduino `delay(ms)` busy-wait. -/
def delay (ms : Nat) : List Event := [Event.delayMs ms]

/-- Trace of the `erase` command handler (main.cpp lines 135-146). -/
def erase : List Event :=
  Bus.config_write ++
  Bus.write_bus 0x5555 0xAA ++ Bus.write_bus 0xAAAA 0x55 ++
  Bus.write_bus 0x5555 0x80 ++ Bus.write_bus 0x5555 0xAA ++
  Bus.write_bus 0xAAAA 0x55 ++ Bus.write_bus 0x5555 0x10 ++
  delay 20

/-- Trace of the `unlock` command handler (main.cpp lines 148-159). -/
def unlock : List Event :=
  Bus.config_write ++
  Bus.write_bus 0x5555 0xAA ++ Bus.write_bus 0xAAAA 0x55 ++
  Bus.write_bus 0x5555 0x80 ++ Bus.write_bus 0x5555 0xAA ++
  Bus.write_bus 0xAAAA 0x55 ++ Bus.write_bus 0x5555 0x20 ++
  delay 10

/-- Trace of the `lock` command handler (main.cpp lines 161-169). -/
def lock : List Event :=
  Bus.config_write ++
  Bus.write_bus 0x5555 0xAA ++ Bus.write_bus 0xAAAA 0x55 ++
  Bus.write_bus 0x5555 0xA0 ++
  delay 10

/-- A bus transaction: one read or one write cycle. -/
inductive Txn
  | rd (a : Nat)
  | wr (a d : Nat)

/-- Trace of one bus transaction. -/
def txnTrace : Txn → List Event
  | .rd a => Bus.read_bus_trace a
  | .wr a d => Bus.write_bus a d

/-- Trace of a sequence of bus transactions, run back to back. -/
def txnsTrace : List Txn → List Event
  | [] => []
  | t :: ts => txnTrace t ++ txnsTrace ts

/-- Number of no-op cycles strictly between the first assertion of read
enable in a trace and the first data-port sample after it. -/
def settleNops (t : List Event) : Nat :=
  ((((t.dropWhile fun e => !(e == Event.assertLine Line.readEn)).drop 1).takeWhile
      fun e => !(e == Event.sample)).countP fun e => e == Event.nop)

/-- The sequence of (address, byte) write transactions the EEPROM observes
while a trace runs: one entry per rising edge of write enable, recording
the latched address and the data-line byte at that edge. -/
def writeLog (s : BusState) : List Event → List (Nat × Nat)
  | [] => []
  | e :: t =>
    let rest := writeLog (step s e) t
    match e with
    | .deassertLine .writeEn =>
        if s.writeEn then (s.addrMSB * 256 + s.addrLSB, busVal s) :: rest else rest
    | _ => rest

/-- Total milliseconds of busy-wait delay in a trace. -/
def delayMsTotal (t : List Event) : Nat :=
  t.foldl (fun acc e => acc + match e with | .delayMs n => n | _ => 0) 0

/-- Checks, after every event of a trace, that read enable is not asserted
while the controller's data port is configured as output, i.e. that the
controller and the EEPROM never drive the shared data lines at once. -/
def contentionFree (s : BusState) : List Event → Bool
  | [] => true
  | e :: t =>
    let s2 := step s e
    (!(s2.dataDir && s2.readEn)) && contentionFree s2 t

/-- A concrete idle bus state: everything configured output, control lines
deasserted, device unlocked, memory erased to 0xFF. -/
def initState : BusState :=
  { dataDir := true, dataOut := 0, msbDir := true, lsbDir := true,
    readEnDir := true, writeEnDir := true, msbEn := false, lsbEn := false,
    readEn := false, writeEn := false, addrMSB := 0, addrLSB := 0,
    mem := fun _ => 0xFF, locked := false, sampled := 0 }

theorem applyTrace_append (s : BusState) (t1 t2 : List Event) :
    applyTrace s (t1 ++ t2) = applyTrace (applyTrace s t1) t2 := by
  induction t1 generalizing s with
  | nil => rfl
  | cons e t ih => simpa [applyTrace] using ih (step s e)

/-- C1: for every address, `read_bus` performs exactly: switch the data bus
to output, latch the address through the shared data lines (MSB latch then
LSB latch), switch the data bus back to input, assert read enable, wait the
fixed settle delay (two no-op cycles), sample the data bus, deassert read
enable; and it returns the byte sampled at the sampling step. -/
theorem read_bus_sequence (s : BusState) (addr : Nat) :
    Bus.read_bus_trace addr =
      [Event.configOutput,
       Event.dataWrite (addr % 65536 / 256 % 256), Event.assertLine Line.msbLatch,
       Event.deassertLine Line.msbLatch,
       Event.dataWrite (addr % 65536 % 256), Event.assertLine Line.lsbLatch,
       Event.deassertLine Line.lsbLatch,
       Event.configInput, Event.assertLine Line.readEn,
       Event.nop, Event.nop, Event.sample, Event.deassertLine Line.readEn] ∧
    (Bus.read_bus s addr).2 =
      busVal (applyTrace s ((Bus.read_bus_trace addr).take 11)) := by
  constructor
  · simp [Bus.read_bus_trace, DataPort.config_output, AddressPort.write,
      AddressMSB.write, AddressLSB.write, Latch.write, DataPort.write,
      DataPort.config_input, ReadEnable.enable, nop, DataPort.read,
      ReadEnable.disable]
  · rfl

/-- C2: for every address and data byte, `write_bus` performs exactly:
write the address (latching the MSB half then the LSB half through the data
lines), assert write enable, drive the data byte onto the data bus, then
deassert write enable. -/
theorem write_bus_sequence (addr data : Nat) :
    Bus.write_bus addr data =
      [Event.dataWrite (addr % 65536 / 256 % 256), Event.assertLine Line.msbLatch,
       Event.deassertLine Line.msbLatch,
       Event.dataWrite (addr % 65536 % 256), Event.assertLine Line.lsbLatch,
       Event.deassertLine Line.lsbLatch,
       Event.assertLine Line.writeEn, Event.dataWrite (data % 256),
       Event.deassertLine Line.writeEn] := by
  simp [Bus.write_bus, AddressPort.write, AddressMSB.write, AddressLSB.write,
    Latch.write, DataPort.write, WriteEnable.enable, WriteEnable.disable]

theorem writeLog_append (s : BusState) (t1 t2 : List Event) :
    writeLog s (t1 ++ t2) = writeLog s t1 ++ writeLog (applyTrace s t1) t2 := by
  induction t1 generalizing s with
  | nil => rfl
  | cons e t ih =>
    cases e with
    | deassertLine l =>
      cases l <;> (simp [writeLog, applyTrace, ih]; all_goals (split <;> simp))
    | _ => simp [writeLog, applyTrace, ih]

theorem writeLog_config_write (s : BusState) :
    writeLog s Bus.config_write = [] := by
  simp [Bus.config_write, AddressPort.config_output, Latch.config_output,
    DataPort.config_output, ReadEnable.config_output, WriteEnable.config_output,
    writeLog, step]

theorem writeLog_delay (s : BusState) (ms : Nat) :
    writeLog s (delay ms) = [] := by
  simp [delay, writeLog]

theorem dataDir_config_write (s : BusState) :
    (applyTrace s Bus.config_write).dataDir = true := by
  rfl

theorem dataDir_write_bus (s : BusState) (a d : Nat) :
    (applyTrace s (Bus.write_bus a d)).dataDir = s.dataDir := by
  rfl

theorem writeLog_write_bus (s : BusState) (a d : Nat) (h : s.dataDir = true) :
    writeLog s (Bus.write_bus a d) =
      [((a % 65536 / 256 % 256 % 256) * 256 + a % 65536 % 256 % 256, d % 256 % 256)] := by
  simp [Bus.write_bus, AddressPort.write, AddressMSB.write, AddressLSB.write,
    Latch.write, DataPort.write, WriteEnable.enable, WriteEnable.disable,
    writeLog, step, busVal, h]

/-- C3: from any starting state, the `erase` handler makes the EEPROM
observe exactly the six writes (0x5555,0xAA), (0xAAAA,0x55), (0x5555,0x80),
(0x5555,0xAA), (0xAAAA,0x55), (0x5555,0x10) in that order, issued as plain
(non-paged) bus writes with no read transaction interleaved, and its trace
ends with a busy-wait of at least 20 ms. -/
theorem erase_sequence (s : BusState) :
    writeLog s erase =
      [(0x5555, 0xAA), (0xAAAA, 0x55), (0x5555, 0x80),
       (0x5555, 0xAA), (0xAAAA, 0x55), (0x5555, 0x10)] ∧
    (erase.countP fun e => e == Event.sample) = 0 ∧
    20 ≤ delayMsTotal erase ∧
    erase.getLast? = some (Event.delayMs 20) := by
  refine ⟨?_, by decide, by decide, by rfl⟩
  simp [erase, writeLog_append, writeLog_config_write, writeLog_write_bus,
    writeLog_delay, dataDir_config_write, dataDir_write_bus]

/-- C4: from any starting state, the `lock` handler makes the EEPROM
observe exactly the three writes (0x5555,0xAA), (0xAAAA,0x55), (0x5555,0xA0)
in that order, issued as plain (non-paged) bus writes with no read
transaction interleaved, and its trace ends with a busy-wait of at least
10 ms. -/
theorem lock_sequence (s : BusState) :
    writeLog s lock =
      [(0x5555, 0xAA), (0xAAAA, 0x55), (0x5555, 0xA0)] ∧
    (lock.countP fun e => e == Event.sample) = 0 ∧
    10 ≤ delayMsTotal lock ∧
    lock.getLast? = some (Event.delayMs 10) := by
  refine ⟨?_, by decide, by decide, by rfl⟩
  simp [lock, writeLog_append, writeLog_config_write, writeLog_write_bus,
    writeLog_delay, dataDir_config_write, dataDir_write_bus]

/-- C5: for every address and data byte, the trace of `write_bus` strobes
the most-significant address latch strictly before the least-significant
one; concretely, in the trace of `write_bus 0x1234 0x00` the data-line
write of 0x12 occurs before the data-line write of 0x34. -/
theorem address_msb_first :
    (∀ addr d,
      ((Bus.write_bus addr d).findIdx fun e => e == Event.assertLine Line.msbLatch) <
      ((Bus.write_bus addr d).findIdx fun e => e == Event.assertLine Line.lsbLatch)) ∧
    ((Bus.write_bus 0x1234 0x00).findIdx fun e => e == Event.dataWrite 0x12) <
    ((Bus.write_bus 0x1234 0x00).findIdx fun e => e == Event.dataWrite 0x34) := by
  constructor
  · intro addr d
    have h1 : ((Bus.write_bus addr d).findIdx fun e => e == Event.assertLine Line.msbLatch) = 1 := rfl
    have h2 : ((Bus.write_bus addr d).findIdx fun e => e == Event.assertLine Line.lsbLatch) = 4 := rfl
    omega
  · decide

/-- C6: in every execution of `read_bus`, at least two no-op cycles elapse
between the assertion of read enable and the sampling of the data bus. -/
theorem read_settle_delay (addr : Nat) :
    2 ≤ settleNops (Bus.read_bus_trace addr) := by
  have h : settleNops (Bus.read_bus_trace addr) = 2 := rfl
  omega

/-- C7: from any starting state, `config_write` leaves both address-latch
strobe lines and the data bus configured as output and both control lines
(read enable and write enable) at their idle, deasserted state. -/
theorem config_write_modes (s : BusState) :
    (applyTrace s Bus.config_write).msbDir = true ∧
    (applyTrace s Bus.config_write).lsbDir = true ∧
    (applyTrace s Bus.config_write).dataDir = true ∧
    (applyTrace s Bus.config_write).readEn = false ∧
    (applyTrace s Bus.config_write).writeEn = false :=
  ⟨rfl, rfl, rfl, rfl, rfl⟩

theorem mem_write_bus (s : BusState) (a d : Nat)
    (h1 : s.dataDir = true) (h2 : s.locked = false) :
    (applyTrace s (Bus.write_bus a d)).mem =
      fun x => if x = (a % 65536 / 256 % 256 % 256) * 256 + a % 65536 % 256 % 256
               then d % 256 % 256 else s.mem x := by
  simp [Bus.write_bus, AddressPort.write, AddressMSB.write, AddressLSB.write,
    Latch.write, DataPort.write, WriteEnable.enable, WriteEnable.disable,
    applyTrace, step, busVal, h1, h2]

theorem mem_config_read (s : BusState) :
    (applyTrace s Bus.config_read).mem = s.mem := rfl

theorem read_bus_value (s : BusState) (a : Nat) :
    (Bus.read_bus s a).2 =
      s.mem ((a % 65536 / 256 % 256 % 256) * 256 + a % 65536 % 256 % 256) % 256 := by
  simp [Bus.read_bus, Bus.read_bus_trace, DataPort.config_output, AddressPort.write,
    AddressMSB.write, AddressLSB.write, Latch.write, DataPort.write,
    DataPort.config_input, ReadEnable.enable, nop, DataPort.read, ReadEnable.disable,
    applyTrace, step, busVal]

/-- C8: for every in-range address `a` and byte `b`, from any state whose
data bus is configured for writing and whose device protection is unlocked,
`write_bus a b` followed by `config_read` and `read_bus a` returns `b`. -/
theorem write_read_roundtrip (s : BusState) (a b : Nat)
    (_ha : a < 65536) (hb : b < 256)
    (hdir : s.dataDir = true) (hlock : s.locked = false) :
    (Bus.read_bus (applyTrace s (Bus.write_bus a b ++ Bus.config_read)) a).2 = b := by
  rw [applyTrace_append, read_bus_value, mem_config_read, mem_write_bus s a b hdir hlock]
  simp
  omega

/-- Witness for C8: the round trip at address 0x1234 and byte 0xAB from the
concrete idle state. -/
theorem write_read_roundtrip_witness :
    (Bus.read_bus (applyTrace initState (Bus.write_bus 0x1234 0xAB ++ Bus.config_read)) 0x1234).2
      = 0xAB :=
  write_read_roundtrip initState 0x1234 0xAB (by decide) (by decide) rfl rfl

theorem writeEn_write_bus (s : BusState) (a d : Nat) :
    (applyTrace s (Bus.write_bus a d)).writeEn = false := rfl

theorem readEn_write_bus (s : BusState) (a d : Nat) :
    (applyTrace s (Bus.write_bus a d)).readEn = s.readEn := rfl

theorem readEn_read_bus (s : BusState) (a : Nat) :
    (applyTrace s (Bus.read_bus_trace a)).readEn = false := rfl

theorem writeEn_read_bus (s : BusState) (a : Nat) :
    (applyTrace s (Bus.read_bus_trace a)).writeEn = s.writeEn := rfl

/-- C9: every bus transaction restores the control lines to idle before
returning: `write_bus` always ends with write enable deasserted,
`read_bus` always ends with read enable deasserted, and from a bus with
both enable lines deasserted, every sequence of transactions ends with
both enable lines deasserted. -/
theorem bus_idle_restore :
    (∀ (s : BusState) (a d : Nat), (applyTrace s (Bus.write_bus a d)).writeEn = false) ∧
    (∀ (s : BusState) (a : Nat), (applyTrace s (Bus.read_bus_trace a)).readEn = false) ∧
    ∀ (ts : List Txn) (s : BusState), s.readEn = false → s.writeEn = false →
      (applyTrace s (txnsTrace ts)).readEn = false ∧
      (applyTrace s (txnsTrace ts)).writeEn = false := by
  refine ⟨fun s a d => rfl, fun s a => rfl, ?_⟩
  intro ts
  induction ts with
  | nil => exact fun s h1 h2 => ⟨h1, h2⟩
  | cons t ts ih =>
    intro s h1 h2
    have h3 : (applyTrace s (txnTrace t)).readEn = false := by
      cases t with
      | rd a => simpa [txnTrace] using readEn_read_bus s a
      | wr a d => simpa [txnTrace, readEn_write_bus] using h1
    have h4 : (applyTrace s (txnTrace t)).writeEn = false := by
      cases t with
      | rd a => simpa [txnTrace, writeEn_read_bus] using h2
      | wr a d => simpa [txnTrace] using writeEn_write_bus s a d
    simpa [txnsTrace, applyTrace_append] using ih (applyTrace s (txnTrace t)) h3 h4

/-- Witness for C9: a write then a read from the concrete idle state leave
both enable lines deasserted. -/
theorem bus_idle_restore_witness :
    (applyTrace initState (txnsTrace [Txn.wr 0x1234 0xAB, Txn.rd 0x1234])).readEn = false ∧
    (applyTrace initState (txnsTrace [Txn.wr 0x1234 0xAB, Txn.rd 0x1234])).writeEn = false :=
  bus_idle_restore.2.2 [Txn.wr 0x1234 0xAB, Txn.rd 0x1234] initState rfl rfl

/-- C10: during `read_bus`, started with read enable deasserted, read
enable is never asserted while the controller's data bus is configured as
output — the controller and the EEPROM never drive the shared data lines
simultaneously — and read enable is deasserted again before the read
returns. -/
theorem read_no_contention (s : BusState) (addr : Nat) (h : s.readEn = false) :
    contentionFree s (Bus.read_bus_trace addr) = true ∧
    (applyTrace s (Bus.read_bus_trace addr)).readEn = false := by
  refine ⟨?_, rfl⟩
  simp [Bus.read_bus_trace, DataPort.config_output, AddressPort.write,
    AddressMSB.write, AddressLSB.write, Latch.write, DataPort.write,
    DataPort.config_input, ReadEnable.enable, nop, DataPort.read,
    ReadEnable.disable, contentionFree, step, h]

/-- Witness for C10: a read of address 0 from the concrete idle state is
contention free and ends with read enable deasserted. -/
theorem read_no_contention_witness :
    contentionFree initState (Bus.read_bus_trace 0) = true ∧
    (applyTrace initState (Bus.read_bus_trace 0)).readEn = false :=
  read_no_contention initState 0 rfl
